import Mathlib

/-!
Shallow embedding of `firebase_admin/project_config_mgt.py`, the Firebase
project configuration management module, together with theorems checking
its specification.  Python runtime values are embedded as an inductive
`PyValue`; the stateful HTTP exchange is embedded by passing an explicit
transport record and returning, next to the result, the number of times the
transport was invoked.  Python `None` arguments are embedded as `Option.none`.
-/

/-- Embedding of the Python runtime values this module handles: JSON-like
data plus `None`. -/
inductive PyValue where
  | none : PyValue
  | boolean : Bool → PyValue
  | int : Int → PyValue
  | str : String → PyValue
  | list : List PyValue → PyValue
  | dict : List (String × PyValue) → PyValue

/-- Python truthiness (`bool(x)`) for the embedded values: `None`, `False`,
`0`, and empty strings/lists/dicts are falsy. -/
def PyValue.truthy : PyValue → Bool
  | PyValue.none => false
  | PyValue.boolean b => b
  | PyValue.int n => n != 0
  | PyValue.str s => !s.isEmpty
  | PyValue.list xs => !xs.isEmpty
  | PyValue.dict es => !es.isEmpty

/-- Whether a value is a Python mapping (`isinstance(x, dict)`). -/
def PyValue.isDict : PyValue → Bool
  | PyValue.dict _ => true
  | _ => false

/-- Python `d.get(key)`: the value bound to `key` in the mapping, or `None`
when the key is absent.  Python dict keys are unique, so the first binding
is the binding. -/
def pyDictGet (entries : List (String × PyValue)) (key : String) : PyValue :=
  match entries.find? (fun p => p.1 == key) with
  | some p => p.2
  | Option.none => PyValue.none

/-- Modelled from the spec: `MultiFactorConfig` (defined in
`firebase_admin.multi_factor_config_mgt`, which is not among the given
sources) is an external configuration value object that can serialize
itself to its server-wire JSON fragment via `build_server_request`. -/
structure MultiFactorConfig where
  serverRequest : PyValue

/-- Modelled from the spec: the serialization method of `MultiFactorConfig`. -/
def MultiFactorConfig.build_server_request (c : MultiFactorConfig) : PyValue :=
  c.serverRequest

/-- Modelled from the spec: `EmailPrivacyConfig` (defined in
`firebase_admin.email_privacy_config_mgt`, which is not among the given
sources) is an external configuration value object that can serialize
itself to its server-wire JSON fragment via `build_server_request`. -/
structure EmailPrivacyConfig where
  serverRequest : PyValue

/-- Modelled from the spec: the serialization method of `EmailPrivacyConfig`. -/
def EmailPrivacyConfig.build_server_request (c : EmailPrivacyConfig) : PyValue :=
  c.serverRequest

/-- Modelled from the spec: `MultiFactorServerConfig`, the external read-only
typed view constructed over the `mfa` fragment of a server response. -/
structure MultiFactorServerConfig where
  data : PyValue

/-- Modelled from the spec: `EmailPrivacyServerConfig`, the external
read-only typed view constructed over the `emailPrivacyConfig` fragment of a
server response. -/
structure EmailPrivacyServerConfig where
  data : PyValue

/-- Embedding of the exceptions surfacing from the module: local
`ValueError`s and the backend error family produced by the shared
error-mapping facility, keyed by HTTP status. -/
inductive FirebaseError where
  | valueError : String → FirebaseError
  | backendError : Nat → String → FirebaseError

/-- A failed HTTP exchange (`requests.exceptions.RequestException`): covers
network failures, non-2xx statuses and malformed response bodies (a JSON
decode failure is a `RequestException` subclass), keyed by the HTTP status
and carrying the backend message. -/
structure RequestException where
  status : Nat
  message : String

/-- Modelled from the spec: `_auth_utils.handle_auth_backend_error` (not
among the given sources) is the shared backend-error-mapping facility; it
translates a failed HTTP exchange into a backend error subtype keyed by the
HTTP status, carrying the backend message unchanged. -/
def handle_auth_backend_error (err : RequestException) : FirebaseError :=
  FirebaseError.backendError err.status err.message

/-- `ProjectConfig`: the snapshot wrapping a raw decoded response body.
The constructor rejects any value that is not a mapping. -/
structure ProjectConfig where
  _data : List (String × PyValue)

/-- `ProjectConfig.__init__`: accepts any mapping and stores it; any
non-mapping value raises `ValueError` (the Python message interpolates the
offending value; the interpolation is elided here). -/
def ProjectConfig.init (data : PyValue) : Except FirebaseError ProjectConfig :=
  match data with
  | PyValue.dict entries => Except.ok (ProjectConfig.mk entries)
  | _ => Except.error (FirebaseError.valueError
      "Invalid data argument in Project constructor:")

/-- The `multi_factor_config` property: looks up key `mfa` in the wrapped
mapping and wraps a truthy value in the typed view, else returns `None`. -/
def ProjectConfig.multi_factor_config (c : ProjectConfig) :
    Option MultiFactorServerConfig :=
  let data := pyDictGet c._data "mfa"
  if data.truthy then some (MultiFactorServerConfig.mk data) else Option.none

/-- The `email_privacy_config` property: looks up key `emailPrivacyConfig`
in the wrapped mapping and wraps a truthy value in the typed view, else
returns `None`. -/
def ProjectConfig.email_privacy_config (c : ProjectConfig) :
    Option EmailPrivacyServerConfig :=
  let data := pyDictGet c._data "emailPrivacyConfig"
  if data.truthy then some (EmailPrivacyServerConfig.mk data) else Option.none

/-- The `multi_factor_config` property as a state transformer on the
snapshot: the property reads `self._data` and mutates nothing, so the
snapshot state is returned unchanged next to the result. -/
def ProjectConfig.multi_factor_config_call (c : ProjectConfig) :
    Option MultiFactorServerConfig × ProjectConfig :=
  (c.multi_factor_config, c)

/-- The `email_privacy_config` property as a state transformer on the
snapshot. -/
def ProjectConfig.email_privacy_config_call (c : ProjectConfig) :
    Option EmailPrivacyServerConfig × ProjectConfig :=
  (c.email_privacy_config, c)

/-- Calling the `multi_factor_config` property `n` times in sequence,
threading the snapshot state through the calls and collecting the results. -/
def mfaAccessorCalls (c : ProjectConfig) :
    Nat → List (Option MultiFactorServerConfig) × ProjectConfig
  | 0 => ([], c)
  | Nat.succ n =>
    let r := c.multi_factor_config_call
    let rest := mfaAccessorCalls r.2 n
    (r.1 :: rest.1, rest.2)

/-- Calling the `email_privacy_config` property `n` times in sequence,
threading the snapshot state through the calls and collecting the results. -/
def epAccessorCalls (c : ProjectConfig) :
    Nat → List (Option EmailPrivacyServerConfig) × ProjectConfig
  | 0 => ([], c)
  | Nat.succ n =>
    let r := c.email_privacy_config_call
    let rest := epAccessorCalls r.2 n
    (r.1 :: rest.1, rest.2)

/-- A dynamically typed Python argument as passed to `update_project_config`:
either one of the two recognized configuration objects, or any other runtime
value (which fails both `isinstance` checks).  Python `None` is embedded as
`Option.none` around this type, so `PyObject.raw PyValue.none` never stands
for an argument that was omitted. -/
inductive PyObject where
  | mfaConfig : MultiFactorConfig → PyObject
  | epConfig : EmailPrivacyConfig → PyObject
  | raw : PyValue → PyObject

/-- Modelled from the spec: `_auth_utils.build_update_mask` (not among the
given sources) computes the update mask as the ordered list of top-level
keys of the payload. -/
def build_update_mask (payload : List (String × PyValue)) : List String :=
  payload.map Prod.fst

/-- Outcome of `update_project_config` up to the HTTP exchange: either a
`ValueError` raised strictly before the client is invoked, or the PATCH
request (JSON payload and query string) handed to the client. -/
inductive UpdateStep where
  | argError : String → UpdateStep
  | send : List (String × PyValue) → String → UpdateStep

/-- Final stage of the payload build in `update_project_config`: the
empty-payload check, then the update mask and query parameter. -/
def updateRequestFinish (payload : List (String × PyValue)) : UpdateStep :=
  if payload.isEmpty then
    UpdateStep.argError "At least one parameter must be specified for update."
  else
    let update_mask := String.intercalate "," (build_update_mask payload)
    let params := "updateMask=" ++ update_mask
    UpdateStep.send payload params

/-- Second stage of the payload build in `update_project_config`: the
`email_privacy_config` block (`is not None` guard, `isinstance` check,
insertion under key `emailPrivacyConfig`). -/
def updateRequestEmailStage (payload : List (String × PyValue))
    (email_privacy_config : Option PyObject) : UpdateStep :=
  match email_privacy_config with
  | some (PyObject.epConfig c) =>
      updateRequestFinish (payload ++ [("emailPrivacyConfig", c.build_server_request)])
  | some _ =>
      UpdateStep.argError "email_privacy_config must be of type EmailPrivacyConfig."
  | Option.none => updateRequestFinish payload

/-- `update_project_config` up to the HTTP exchange: starts from the empty
payload, runs the `multi_factor_config` block (`is not None` guard,
`isinstance` check, insertion under key `mfa`), then the
`email_privacy_config` block, then the empty-payload check and the mask. -/
def update_project_config_request (multi_factor_config : Option PyObject)
    (email_privacy_config : Option PyObject) : UpdateStep :=
  let payload : List (String × PyValue) := []
  match multi_factor_config with
  | some (PyObject.mfaConfig c) =>
      updateRequestEmailStage (payload ++ [("mfa", c.build_server_request)])
        email_privacy_config
  | some _ =>
      UpdateStep.argError "multi_factor_config must be of type MultiFactorConfig."
  | Option.none => updateRequestEmailStage payload email_privacy_config

/-- The JSON-over-HTTPS client (`_http_client.JsonHttpClient`), an external
collaborator: each operation either returns the decoded JSON body or raises
a `RequestException`. -/
structure JsonHttpClient where
  getBody : Except RequestException PyValue
  patchBody : List (String × PyValue) → String → Except RequestException PyValue

/-- `get_project_config`: one GET; a `RequestException` is mapped through
the backend-error facility, a body is wrapped in a `ProjectConfig`.  The
second component counts the client invocations made. -/
def get_project_config (client : JsonHttpClient) :
    Except FirebaseError ProjectConfig × Nat :=
  match client.getBody with
  | Except.error err => (Except.error (handle_auth_backend_error err), 1)
  | Except.ok body => (ProjectConfig.init body, 1)

/-- `update_project_config`: builds the request; an argument error is raised
with zero client invocations, otherwise one PATCH is issued and its outcome
is mapped exactly as in `get_project_config`.  The second component counts
the client invocations made. -/
def update_project_config (client : JsonHttpClient)
    (multi_factor_config : Option PyObject)
    (email_privacy_config : Option PyObject) :
    Except FirebaseError ProjectConfig × Nat :=
  match update_project_config_request multi_factor_config email_privacy_config with
  | UpdateStep.argError msg => (Except.error (FirebaseError.valueError msg), 0)
  | UpdateStep.send payload params =>
    match client.patchBody payload params with
    | Except.error err => (Except.error (handle_auth_backend_error err), 1)
    | Except.ok body => (ProjectConfig.init body, 1)

/-- Claim C1: for every valid multi-factor config argument, `update` with
only `multi_factor_config` set builds a payload containing exactly the
single key `mfa`, and the update mask query parameter string is exactly
`mfa`. -/
theorem update_only_mfa_payload_and_mask (c : MultiFactorConfig) :
    update_project_config_request (some (PyObject.mfaConfig c)) Option.none =
      UpdateStep.send [("mfa", c.build_server_request)] "updateMask=mfa" := rfl

/-- Claim C2: for every pair of valid config arguments, `update` with both
set builds a payload whose keys are `mfa` then `emailPrivacyConfig` in that
insertion order, and the mask is exactly `mfa,emailPrivacyConfig`, the
ordered top-level payload keys joined with commas. -/
theorem update_both_payload_order_and_mask (c : MultiFactorConfig)
    (p : EmailPrivacyConfig) :
    update_project_config_request (some (PyObject.mfaConfig c))
        (some (PyObject.epConfig p)) =
      UpdateStep.send
        [("mfa", c.build_server_request),
         ("emailPrivacyConfig", p.build_server_request)]
        "updateMask=mfa,emailPrivacyConfig" := rfl

/-- Claim C3: `update` with neither argument supplied raises a `ValueError`
and makes zero network calls: the failure occurs strictly before the HTTP
client is invoked, for every client. -/
theorem update_no_args_value_error_no_network :
    update_project_config_request Option.none Option.none =
      UpdateStep.argError "At least one parameter must be specified for update." ∧
    ∀ client : JsonHttpClient,
      update_project_config client Option.none Option.none =
        (Except.error (FirebaseError.valueError
          "At least one parameter must be specified for update."), 0) :=
  ⟨rfl, fun _ => rfl⟩

/-- A transport that fails every exchange with status 500, used to exercise
the operations at concrete inputs. -/
def nullClient : JsonHttpClient :=
  JsonHttpClient.mk (Except.error (RequestException.mk 500 "unavailable"))
    (fun _ _ => Except.error (RequestException.mk 500 "unavailable"))

/-- Claim C4: an argument that is not an instance of its expected config
type makes `update` raise a `ValueError` with zero network calls, and the
type checks run in the fixed order multi-factor first (a wrong-typed
multi-factor argument wins over any email-privacy argument), then
email-privacy, entirely before the network layer. -/
theorem update_wrong_type_value_error_no_network :
    (∀ m : PyObject, (∀ c, m ≠ PyObject.mfaConfig c) →
      ∀ (e : Option PyObject) (client : JsonHttpClient),
        update_project_config_request (some m) e =
          UpdateStep.argError "multi_factor_config must be of type MultiFactorConfig." ∧
        update_project_config client (some m) e =
          (Except.error (FirebaseError.valueError
            "multi_factor_config must be of type MultiFactorConfig."), 0)) ∧
    (∀ e : PyObject, (∀ c, e ≠ PyObject.epConfig c) →
      ∀ client : JsonHttpClient,
        (update_project_config_request Option.none (some e) =
          UpdateStep.argError "email_privacy_config must be of type EmailPrivacyConfig." ∧
         update_project_config client Option.none (some e) =
          (Except.error (FirebaseError.valueError
            "email_privacy_config must be of type EmailPrivacyConfig."), 0)) ∧
        ∀ c : MultiFactorConfig,
          update_project_config_request (some (PyObject.mfaConfig c)) (some e) =
            UpdateStep.argError "email_privacy_config must be of type EmailPrivacyConfig.") := by
  constructor
  · intro m hm e client
    cases m with
    | mfaConfig c => exact absurd rfl (hm c)
    | epConfig c => exact ⟨rfl, rfl⟩
    | raw v => exact ⟨rfl, rfl⟩
  · intro e he client
    refine ⟨?_, ?_⟩
    · cases e with
      | mfaConfig c => exact ⟨rfl, rfl⟩
      | epConfig c => exact absurd rfl (he c)
      | raw v => exact ⟨rfl, rfl⟩
    · intro c
      cases e with
      | mfaConfig p => rfl
      | epConfig p => exact absurd rfl (he p)
      | raw v => rfl

/-- Witness for C4: a plain integer in the multi-factor slot and a plain
string in the email-privacy slot each raise the respective `ValueError`
with zero client invocations. -/
theorem update_wrong_type_value_error_no_network_witness :
    update_project_config_request (some (PyObject.raw (PyValue.int 7))) Option.none =
      UpdateStep.argError "multi_factor_config must be of type MultiFactorConfig." ∧
    update_project_config nullClient Option.none (some (PyObject.raw (PyValue.str "x"))) =
      (Except.error (FirebaseError.valueError
        "email_privacy_config must be of type EmailPrivacyConfig."), 0) :=
  ⟨(update_wrong_type_value_error_no_network.1 (PyObject.raw (PyValue.int 7))
      (fun _ h => PyObject.noConfusion h) Option.none nullClient).1,
   ((update_wrong_type_value_error_no_network.2 (PyObject.raw (PyValue.str "x"))
      (fun _ h => PyObject.noConfusion h) nullClient).1).2⟩

/-- Claim C5: a snapshot built from a mapping binding `mfa` and
`emailPrivacyConfig` to non-empty mappings answers both accessors with
non-absent typed views; a snapshot built from the empty mapping answers
both accessors with `None`. -/
theorem snapshot_nonempty_sections_present (m e : List (String × PyValue))
    (hm : m ≠ []) (he : e ≠ []) :
    (∃ c, ProjectConfig.init (PyValue.dict
        [("mfa", PyValue.dict m), ("emailPrivacyConfig", PyValue.dict e)]) =
          Except.ok c ∧
      c.multi_factor_config.isSome = true ∧
      c.email_privacy_config.isSome = true) ∧
    (∃ c0, ProjectConfig.init (PyValue.dict []) = Except.ok c0 ∧
      c0.multi_factor_config = Option.none ∧
      c0.email_privacy_config = Option.none) := by
  constructor
  · refine ⟨ProjectConfig.mk
      [("mfa", PyValue.dict m), ("emailPrivacyConfig", PyValue.dict e)], rfl, ?_, ?_⟩
    · cases m with
      | nil => exact absurd rfl hm
      | cons x xs => rfl
    · cases e with
      | nil => exact absurd rfl he
      | cons x xs => rfl
  · exact ⟨ProjectConfig.mk [], rfl, rfl, rfl⟩

/-- Witness for C5: concrete non-empty sub-mappings. -/
theorem snapshot_nonempty_sections_present_witness :
    (∃ c, ProjectConfig.init (PyValue.dict
        [("mfa", PyValue.dict [("state", PyValue.str "ENABLED")]),
         ("emailPrivacyConfig", PyValue.dict
            [("enableImprovedEmailPrivacy", PyValue.boolean true)])]) =
          Except.ok c ∧
      c.multi_factor_config.isSome = true ∧
      c.email_privacy_config.isSome = true) ∧
    (∃ c0, ProjectConfig.init (PyValue.dict []) = Except.ok c0 ∧
      c0.multi_factor_config = Option.none ∧
      c0.email_privacy_config = Option.none) :=
  snapshot_nonempty_sections_present
    [("state", PyValue.str "ENABLED")]
    [("enableImprovedEmailPrivacy", PyValue.boolean true)]
    (List.cons_ne_nil _ _) (List.cons_ne_nil _ _)

/-- Claim C6: constructing a snapshot from any non-mapping value raises a
`ValueError`; constructing from any mapping succeeds and stores it. -/
theorem snapshot_constructor_mapping_check :
    (∀ entries : List (String × PyValue),
      ProjectConfig.init (PyValue.dict entries) =
        Except.ok (ProjectConfig.mk entries)) ∧
    ∀ v : PyValue, v.isDict = false →
      ProjectConfig.init v = Except.error (FirebaseError.valueError
        "Invalid data argument in Project constructor:") := by
  refine ⟨fun entries => rfl, fun v h => ?_⟩
  cases v <;> first | rfl | simp [PyValue.isDict] at h

/-- Witness for C6: a list is rejected by the snapshot constructor. -/
theorem snapshot_constructor_mapping_check_witness :
    ProjectConfig.init (PyValue.list []) =
      Except.error (FirebaseError.valueError
        "Invalid data argument in Project constructor:") :=
  snapshot_constructor_mapping_check.2 (PyValue.list []) rfl

/-- Claim C7: when the wrapped mapping binds a sub-section key to a falsy
value, the corresponding accessor answers `None` rather than building a
typed view: absence is decided by truthiness of the stored value. -/
theorem snapshot_falsy_section_absent (entries : List (String × PyValue))
    (v : PyValue) (hv : v.truthy = false) :
    (pyDictGet entries "mfa" = v →
      (ProjectConfig.mk entries).multi_factor_config = Option.none) ∧
    (pyDictGet entries "emailPrivacyConfig" = v →
      (ProjectConfig.mk entries).email_privacy_config = Option.none) := by
  constructor
  · intro h
    simp [ProjectConfig.multi_factor_config, h, hv]
  · intro h
    simp [ProjectConfig.email_privacy_config, h, hv]

/-- Witness for C7: `mfa` bound to an empty mapping and
`emailPrivacyConfig` bound to `0` are both treated as absent. -/
theorem snapshot_falsy_section_absent_witness :
    (ProjectConfig.mk [("mfa", PyValue.dict []),
        ("emailPrivacyConfig", PyValue.int 0)]).multi_factor_config = Option.none ∧
    (ProjectConfig.mk [("mfa", PyValue.dict []),
        ("emailPrivacyConfig", PyValue.int 0)]).email_privacy_config = Option.none :=
  ⟨(snapshot_falsy_section_absent _ (PyValue.dict []) rfl).1 rfl,
   (snapshot_falsy_section_absent _ (PyValue.int 0) rfl).2 rfl⟩

/-- Claim C8: when the HTTP exchange fails, fetch and update both raise the
backend error produced by the error-mapping facility for that status, after
exactly one client invocation, and no snapshot (hence no accessor) is ever
produced. -/
theorem backend_error_mapped_no_snapshot (s : Nat) (msg : String)
    (client : JsonHttpClient)
    (hg : client.getBody = Except.error (RequestException.mk s msg))
    (hp : ∀ payload params, client.patchBody payload params =
      Except.error (RequestException.mk s msg)) :
    get_project_config client =
      (Except.error (FirebaseError.backendError s msg), 1) ∧
    ∀ (m e : Option PyObject) (payload : List (String × PyValue)) (params : String),
      update_project_config_request m e = UpdateStep.send payload params →
      update_project_config client m e =
        (Except.error (FirebaseError.backendError s msg), 1) := by
  constructor
  · unfold get_project_config
    rw [hg]
    rfl
  · intro m e payload params h
    simp [update_project_config, h, hp, handle_auth_backend_error]

/-- Witness for C8: a client failing with status 500 makes both operations
raise the mapped backend error. -/
theorem backend_error_mapped_no_snapshot_witness :
    get_project_config nullClient =
      (Except.error (FirebaseError.backendError 500 "unavailable"), 1) ∧
    update_project_config nullClient
        (some (PyObject.mfaConfig (MultiFactorConfig.mk PyValue.none))) Option.none =
      (Except.error (FirebaseError.backendError 500 "unavailable"), 1) :=
  ⟨(backend_error_mapped_no_snapshot 500 "unavailable" nullClient rfl
      (fun _ _ => rfl)).1,
   (backend_error_mapped_no_snapshot 500 "unavailable" nullClient rfl
      (fun _ _ => rfl)).2
     (some (PyObject.mfaConfig (MultiFactorConfig.mk PyValue.none))) Option.none
     [("mfa", PyValue.none)] "updateMask=mfa" rfl⟩

/-- Claim C9: the snapshot accessors are idempotent and side-effect-free:
any number of sequential calls leaves the wrapped mapping unchanged and
every call answers the same result, re-derived from the stored mapping. -/
theorem snapshot_accessors_idempotent_pure (c : ProjectConfig) (n : Nat) :
    (mfaAccessorCalls c n).2 = c ∧
    (mfaAccessorCalls c n).1 = List.replicate n c.multi_factor_config ∧
    (epAccessorCalls c n).2 = c ∧
    (epAccessorCalls c n).1 = List.replicate n c.email_privacy_config := by
  induction n with
  | zero => exact ⟨rfl, rfl, rfl, rfl⟩
  | succ n ih =>
    refine ⟨?_, ?_, ?_, ?_⟩ <;>
      simp [mfaAccessorCalls, epAccessorCalls,
        ProjectConfig.multi_factor_config_call,
        ProjectConfig.email_privacy_config_call, List.replicate,
        ih.1, ih.2.1, ih.2.2.1, ih.2.2.2]

/-- Claim C10: the empty-payload `ValueError` of `update` is reachable only
when both arguments are `None`: any supplied, correctly typed argument
inserts a key into the payload first. -/
theorem empty_update_error_only_when_both_none (m e : Option PyObject)
    (h : update_project_config_request m e =
      UpdateStep.argError "At least one parameter must be specified for update.") :
    m = Option.none ∧ e = Option.none := by
  cases m with
  | none =>
    cases e with
    | none => exact ⟨rfl, rfl⟩
    | some o =>
      cases o <;>
        simp [update_project_config_request, updateRequestEmailStage,
          updateRequestFinish, build_update_mask] at h
  | some o =>
    cases o with
    | mfaConfig c =>
      cases e with
      | none =>
        simp [update_project_config_request, updateRequestEmailStage,
          updateRequestFinish, build_update_mask] at h
      | some o2 =>
        cases o2 <;>
          simp [update_project_config_request, updateRequestEmailStage,
            updateRequestFinish, build_update_mask] at h
    | epConfig c =>
      simp [update_project_config_request] at h
    | raw v =>
      simp [update_project_config_request] at h

/-- Witness for C10: with both arguments `None` the hypothesis holds and the
conclusion follows. -/
theorem empty_update_error_only_when_both_none_witness :
    (Option.none : Option PyObject) = Option.none ∧
    (Option.none : Option PyObject) = Option.none :=
  empty_update_error_only_when_both_none Option.none Option.none rfl
